import Mathlib

set_option maxHeartbeats 1000000

/-!
Verification of the mesh topology classification and spatial-coverage
scoring engine of the MeshAnalyzer repository
(`mesh_analyzer.py`, `mesh_venn_calculator.py`).

The Python code is shallowly embedded: BSSIDs are modelled as their lists
of MAC octets, Python dicts keyed by base identifier as insertion-ordered
lists, Python sets of band strings as insertion-ordered duplicate-free
lists (CPython set iteration order is hash-dependent; what matters for the
claims is that the code performs no sort on them), int arithmetic as `Int`,
float division on integer data as `ℚ`, and the floating-point geometry of
the Venn calculator as real arithmetic.  A Python function that can raise
(`max([])` raises `ValueError`) is embedded with an `Option` result, `none`
meaning the exception escapes.
-/

namespace MeshAnalyzer

/-- One scanned radio (the `APScan` dataclass).  The BSSID is modelled as
its list of MAC octets; `ssid`, `capabilities` and `last_seen` play no role
in the analyzed core. -/
structure APScan where
  bssid : List Nat
  freq : Int
  signal : Int
deriving DecidableEq

/-- `':'.join(bssid.split(':')[:-1])` — the BSSID with its last octet
stripped. -/
def baseMac (bssid : List Nat) : List Nat := bssid.dropLast

/-- `':'.join(bssid.split(':')[:3])` — the 24-bit OUI. -/
def ouiOf (bssid : List Nat) : List Nat := bssid.take 3

/-- `MeshIntelligence._determine_band`. -/
def determineBand (freq : Int) : String :=
  if 2400 ≤ freq ∧ freq ≤ 2500 then "2.4GHz"
  else if 5000 ≤ freq ∧ freq ≤ 5999 then "5GHz"
  else if 6000 ≤ freq ∧ freq ≤ 7125 then "6GHz"
  else "other"

/-- One radio entry of a mesh-node dict. -/
structure Radio where
  bssid : List Nat
  freq : Int
  signal : Int
  band : String
deriving DecidableEq

/-- One value of the `mesh_nodes` dict.  `bands` is a Python set, modelled
as an insertion-ordered duplicate-free list. -/
structure MeshNode where
  base_mac : List Nat
  radios : List Radio
  bands : List String
  strongest_signal : Int
deriving DecidableEq

def mkRadio (ap : APScan) : Radio :=
  { bssid := ap.bssid, freq := ap.freq, signal := ap.signal,
    band := determineBand ap.freq }

/-- `set.add` under the insertion-order model. -/
def insertBand (bands : List String) (b : String) : List String :=
  if b ∈ bands then bands else bands ++ [b]

/-- The update performed when another radio with the same base MAC is found
(`mesh_analyzer.py` lines 1737-1748): append the radio, add its band,
recompute `strongest_signal` as the max with the new signal. -/
def addRadio (n : MeshNode) (ap : APScan) : MeshNode :=
  { n with radios := n.radios ++ [mkRadio ap],
           bands := insertBand n.bands (determineBand ap.freq),
           strongest_signal := max n.strongest_signal ap.signal }

/-- A fresh mesh-node dict (lines 1760-1770). -/
def newMeshNode (ap : APScan) : MeshNode :=
  { base_mac := baseMac ap.bssid, radios := [mkRadio ap],
    bands := [determineBand ap.freq], strongest_signal := ap.signal }

/-- In-place dict update: replace the entry whose key is `key`. -/
def updateNode (nodes : List MeshNode) (key : List Nat) (ap : APScan) :
    List MeshNode :=
  nodes.map fun n => if n.base_mac = key then addRadio n ap else n

/-- `MeshIntelligence._is_likely_same_mesh_system`: all OUIs identical. -/
def isLikelySameMeshSystem (base_macs : List (List Nat)) : Bool :=
  if base_macs.length < 2 then false
  else decide ((base_macs.map ouiOf).dedup.length = 1)

/-- The mutable state of the clustering loop of `analyze_mesh_topology`
(lines 1730-1731). -/
structure ClusterState where
  mesh_nodes : List MeshNode
  standalone_aps : List APScan
deriving DecidableEq

/-- One iteration of the clustering loop (lines 1733-1773).  `all` is the
whole `same_ssid_aps` list (the duplicate-base-MAC count on line 1758 scans
the complete list). -/
def clusterStep (all : List APScan) (st : ClusterState) (ap : APScan) :
    ClusterState :=
  let base := baseMac ap.bssid
  if st.mesh_nodes.any fun n => decide (n.base_mac = base) then
    { st with mesh_nodes := updateNode st.mesh_nodes base ap }
  else
    let is_mesh_node :=
      st.mesh_nodes.any fun n => isLikelySameMeshSystem [base, n.base_mac]
    if is_mesh_node ∨
        (all.filter fun a => decide (baseMac a.bssid = base)).length > 1 then
      { st with mesh_nodes := st.mesh_nodes ++ [newMeshNode ap] }
    else
      { st with standalone_aps := st.standalone_aps ++ [ap] }

/-- The clustering loop of `analyze_mesh_topology` run over the whole scan
list. -/
def clusterAPs (aps : List APScan) : ClusterState :=
  aps.foldl (clusterStep aps) ⟨[], []⟩

/-- Python `max` on a list of ints; the `[]` case is unreachable at every
guarded call site (Python would raise there). -/
def listMax : List Int → Int
  | [] => 0
  | x :: xs => xs.foldl max x

/-- Python `min` on a list of ints. -/
def listMin : List Int → Int
  | [] => 0
  | x :: xs => xs.foldl min x

/-- The four coverage zone buckets of `_classify_coverage_zones`. -/
structure Zones where
  primary : List Int
  secondary : List Int
  tertiary : List Int
  fringe : List Int
deriving DecidableEq

def zoneInsert (z : Zones) (signal : Int) : Zones :=
  if signal > -50 then { z with primary := z.primary ++ [signal] }
  else if signal > -65 then { z with secondary := z.secondary ++ [signal] }
  else if signal > -80 then { z with tertiary := z.tertiary ++ [signal] }
  else { z with fringe := z.fringe ++ [signal] }

/-- `MeshIntelligence._classify_coverage_zones`. -/
def classifyCoverageZones (sorted_signals : List Int) : Zones :=
  sorted_signals.foldl zoneInsert ⟨[], [], [], []⟩

/-- `MeshIntelligence._signal_to_distance_estimate`. -/
def signalToDistanceEstimate (signal_dbm : Int) : String :=
  if signal_dbm > -40 then "very close (same room)"
  else if signal_dbm > -50 then "close (adjacent room)"
  else if signal_dbm > -65 then "medium range (different floor/far room)"
  else if signal_dbm > -80 then "extended range (distant area)"
  else "maximum range (basement/garage/far areas)"

/-- One coverage-issue dict. -/
structure Issue where
  type : String
  severity : String
  details : String
  impact : String
  location : String
deriving DecidableEq

/-- The `large_coverage_gap` issue built for gap number `i` (lines
1921-1928). -/
def gapIssue (i : Nat) (gap : Int) (sorted_signals : List Int) : Issue :=
  let si := sorted_signals.getD i 0
  let sj := sorted_signals.getD (i + 1) 0
  let di := signalToDistanceEstimate si
  let dj := signalToDistanceEstimate sj
  { type := "large_coverage_gap",
    severity := if gap > 35 then "high" else "medium",
    details := s!"{gap}dB gap between node {i+1} ({si}dBm) and node {i+2} ({sj}dBm)",
    impact := "Potential dead zone or weak coverage area",
    location := s!"Between {di} and {dj}" }

/-- The `for i, gap in enumerate(signal_gaps)` loop of
`_detect_coverage_issues`. -/
def gapIssuesAux (sorted_signals : List Int) : List Int → Nat → List Issue
  | [], _ => []
  | g :: rest, i =>
    (if g > 25 then [gapIssue i g sorted_signals] else [])
      ++ gapIssuesAux sorted_signals rest (i + 1)

/-- `MeshIntelligence._detect_coverage_issues`. -/
def detectCoverageIssues (sorted_signals signal_gaps : List Int)
    (zones : Zones) : List Issue :=
  let gap_issues := gapIssuesAux sorted_signals signal_gaps 0
  let intermediate :=
    if zones.secondary = [] ∧ zones.primary ≠ [] ∧ zones.tertiary ≠ [] then
      [{ type := "missing_intermediate_coverage", severity := "medium",
         details := "No medium-range coverage detected",
         impact := "May have coverage gaps between close and distant areas",
         location := "Medium-range areas (adjacent rooms/floors)" }]
    else []
  let clustering :=
    -- `len(primary) > len(sorted_signals) * 0.6` with the denominator
    -- cleared: both sides are nonnegative integers, so the comparison with
    -- the exact rational 3/5 is this integer comparison.
    if 10 * zones.primary.length > 6 * sorted_signals.length then
      let np := zones.primary.length
      let ns := sorted_signals.length
      [{ type := "node_clustering", severity := "low",
         details := s!"{np} of {ns} nodes in primary zone",
         impact := "Possible over-concentration of nodes in small area",
         location := "Primary coverage area" }]
    else []
  let isolated :=
    if zones.fringe ≠ [] ∧ zones.tertiary = [] then
      let m := listMin sorted_signals
      let dm := signalToDistanceEstimate m
      [{ type := "isolated_distant_node", severity := "medium",
         details := s!"Distant node at {m}dBm without intermediate coverage",
         impact := "Isolated coverage with potential gap to main mesh",
         location := s!"~{dm}" }]
    else []
  gap_issues ++ intermediate ++ clustering ++ isolated

/-- One step of the quality-score penalty loop (lines 1969-1975). -/
def issuePenalty (score : Int) (issue : Issue) : Int :=
  if issue.severity = "high" then score - 25
  else if issue.severity = "medium" then score - 15
  else if issue.severity = "low" then score - 5
  else score

/-- The classification if-chain of `_assess_mesh_topology` (lines
2015-2036), returning the classification together with the summary. -/
def classifyTopology (issues : List Issue) (node_count : Nat)
    (quality_score : Int) (node_assessment : String) : String × String :=
  let high_severity_issues := issues.filter fun i => decide (i.severity = "high")
  let medium_severity_issues := issues.filter fun i => decide (i.severity = "medium")
  if high_severity_issues ≠ [] then
    ("topology_issues", s!"{node_assessment} but significant coverage gaps detected")
  else if medium_severity_issues ≠ [] ∧ node_count < 3 then
    ("basic_topology", s!"{node_assessment} with some coverage limitations")
  else if medium_severity_issues ≠ [] then
    ("good_topology", s!"{node_assessment} with minor coverage irregularities")
  else if node_count ≥ 4 ∧ quality_score > 85 then
    ("excellent_topology", s!"{node_assessment} with excellent spatial distribution")
  else if node_count ≥ 3 ∧ quality_score > 75 then
    ("good_topology", s!"{node_assessment} with good spatial coverage")
  else
    ("basic_topology", s!"{node_assessment} - adequate but could be optimized")

/-- The per-issue recommendation strings (lines 2040-2048). -/
def recommendationFor (i : Issue) : List String :=
  let loc := i.location
  if i.type = "large_coverage_gap" then
    [s!"Consider adding a node in {loc} to eliminate coverage gap"]
  else if i.type = "missing_intermediate_coverage" then
    ["Add intermediate nodes for smoother coverage transitions"]
  else if i.type = "node_clustering" then
    ["Consider relocating some nodes for better spatial distribution"]
  else if i.type = "isolated_distant_node" then
    ["Add intermediate nodes to bridge coverage to distant areas"]
  else []

/-- The recommendations block (lines 2039-2053). -/
def buildRecommendations (issues : List Issue) (quality_score : Int) :
    List String :=
  let recs := (issues.map recommendationFor).flatten
  if recs = [] ∧ quality_score > 90 then
    ["Excellent mesh topology - no improvements needed"]
  else if recs = [] then
    ["Good mesh topology - minor optimizations possible"]
  else recs

/-- The dict returned by `_assess_mesh_topology`. -/
structure Assessment where
  classification : String
  summary : String
  distribution_analysis : String
  quality_score : Int
  recommendations : List String
  node_assessment : String
  distribution_quality : String
deriving DecidableEq

/-- `MeshIntelligence._assess_mesh_topology`.  Line 1981 evaluates
`max(signal_gaps)` with no emptiness guard, so on an empty gap list (a
single mesh node) the function raises `ValueError`, modelled as `none`.
Everything executed before that point is side-effect free. -/
def assessMeshTopology (sorted_signals signal_gaps : List Int)
    (zones : Zones) (issues : List Issue) : Option Assessment :=
  let score1 := issues.foldl issuePenalty 100
  let score2 := if zones.secondary.length > 0 then score1 + 10 else score1
  match signal_gaps with
  | [] => none
  | g :: gs =>
    let score3 := if listMax (g :: gs) < 20 then score2 + 15 else score2
    let node_count := sorted_signals.length
    let node_assessment :=
      if node_count ≥ 4 then
        s!"{node_count} nodes detected - excellent for comprehensive coverage"
      else if node_count = 3 then
        s!"{node_count} nodes detected - good for most home sizes"
      else if node_count = 2 then
        s!"{node_count} nodes detected - basic mesh configuration"
      else
        s!"{node_count} node detected - not a true mesh"
    let max_gap := listMax (g :: gs)
    let distribution_pair :=
      if max_gap > 30 then
        ("poor_distribution",
         s!"Large signal gaps detected (max {max_gap}dB) - potential coverage holes")
      else if max_gap > 20 then
        ("uneven_distribution",
         s!"Moderate signal gaps (max {max_gap}dB) - some coverage irregularities")
      else if max_gap > 10 then
        ("good_distribution",
         s!"Well-spaced nodes (max gap {max_gap}dB) - good coverage continuity")
      else
        ("excellent_distribution",
         s!"Smooth signal transitions (max gap {max_gap}dB) - excellent spatial distribution")
    let cls := classifyTopology issues node_count score3 node_assessment
    some { classification := cls.1,
           summary := cls.2,
           distribution_analysis := distribution_pair.2,
           quality_score := max 0 (min 100 score3),
           recommendations := buildRecommendations issues score3,
           node_assessment := node_assessment,
           distribution_quality := distribution_pair.1 }

/-- The consecutive-gap list `gap[i] = sorted[i] - sorted[i+1]`
(lines 1863-1866). -/
def signalGaps : List Int → List Int
  | a :: b :: rest => (a - b) :: signalGaps (b :: rest)
  | _ => []

/-- The dict returned by `_perform_spatial_coverage_analysis`. -/
structure CoverageAnalysis where
  sorted_signals : List Int
  signal_gaps : List Int
  max_signal_gap : Int
  avg_signal_gap : ℚ
  coverage_zones : Zones
  coverage_issues : List Issue
  topology_classification : String
  summary : String
  spatial_distribution : String
  recommendations : List String
  coverage_quality_score : Int
deriving DecidableEq

/-- `MeshIntelligence._perform_spatial_coverage_analysis` (the `mesh_nodes`
parameter is unused in the Python body as well). -/
def performSpatialCoverageAnalysis (sorted_signals : List Int)
    (mesh_nodes : List MeshNode) : Option CoverageAnalysis :=
  let gaps := signalGaps sorted_signals
  let max_gap := if gaps = [] then 0 else listMax gaps
  let avg_gap : ℚ :=
    if gaps = [] then 0
    else ((gaps.foldl (· + ·) 0 : Int) : ℚ) / (gaps.length : ℚ)
  let zones := classifyCoverageZones sorted_signals
  let issues := detectCoverageIssues sorted_signals gaps zones
  match assessMeshTopology sorted_signals gaps zones issues with
  | none => none
  | some ta =>
    some { sorted_signals := sorted_signals, signal_gaps := gaps,
           max_signal_gap := max_gap, avg_signal_gap := avg_gap,
           coverage_zones := zones, coverage_issues := issues,
           topology_classification := ta.classification,
           summary := ta.summary,
           spatial_distribution := ta.distribution_analysis,
           recommendations := ta.recommendations,
           coverage_quality_score := ta.quality_score }

/-- The static OUI → mesh brand table of `MeshIntelligence.__init__`,
in declaration order, OUIs as octet triples. -/
def ouiDatabase : List (String × List (List Nat)) :=
  [("eero", [[0xA0,0x21,0xB7],[0x68,0x1D,0xA0],[0xB0,0x8E,0x86],[0xF8,0xBB,0xBF],[0xD8,0x8E,0xD4],[0xE8,0xD3,0xEB]]),
   ("orbi_netgear", [[0x98,0x97,0x9A],[0x44,0xB1,0x3B],[0x9C,0x28,0xEF],[0xA0,0x04,0x60],[0x04,0xA1,0x51]]),
   ("google_nest", [[0xA4,0x50,0x46],[0x64,0xFF,0x89],[0xCC,0x52,0xAF],[0x6C,0x71,0x0D]]),
   ("asus", [[0x40,0xED,0x00],[0x88,0x1F,0xA1],[0xAC,0x9E,0x17],[0x2C,0x56,0xDC],[0x04,0xD4,0xC4]]),
   ("tp_link_deco", [[0x98,0x25,0x4A],[0x44,0x94,0xFC],[0xB0,0x48,0x7A],[0x50,0xC7,0xBF],[0xA4,0x2B,0xB0]]),
   ("linksys_velop", [[0x6C,0xBE,0xE9],[0x13,0x10,0x47],[0x98,0x9E,0x64],[0x94,0x10,0x3E],[0xC4,0x41,0x1E]]),
   ("ubiquiti", [[0x78,0x8A,0x20],[0x24,0x5A,0x4C],[0xF0,0x9F,0xC2],[0x44,0xD9,0xE7],[0xE0,0x63,0xDA]]),
   ("mikrotik", [[0x6C,0x3B,0x6B],[0x48,0x8F,0x5A],[0x2C,0xC8,0x1B],[0x4C,0x5E,0x0C],[0xE4,0x8D,0x8C]]),
   ("aruba_hpe", [[0x70,0x3A,0xCB],[0x6C,0xF3,0x7F],[0x24,0xDE,0xC6],[0x94,0xB4,0x0F],[0x20,0x4C,0x03]]),
   ("ruckus", [[0x50,0x91,0xE3],[0x2C,0x36,0xF8],[0x94,0x3E,0xEA],[0xBC,0x14,0x85],[0x58,0x93,0x96]]),
   ("cisco_meraki", [[0x00,0x18,0x0A],[0xE0,0x55,0x3D],[0x88,0x15,0x44],[0x0C,0x8D,0xDB],[0x34,0x56,0xFE]]),
   ("engenius", [[0x88,0xDC,0x96],[0x50,0x2B,0x73],[0x02,0xCF,0x7F],[0x00,0x02,0x6F]]),
   ("dlink", [[0xCC,0xB2,0x55],[0xB8,0xA3,0x86],[0x34,0x08,0x04],[0x14,0xD6,0x4D],[0x84,0xC9,0xB2]]),
   ("netgear_general", [[0x10,0x0D,0x7F],[0x28,0xC6,0x8E],[0xB0,0x7F,0xB9],[0x4C,0x60,0xDE]]),
   ("plume_adaptive", [[0x74,0xDA,0x88],[0x78,0x28,0xCA],[0xA0,0x40,0xA0]]),
   ("xfinity_pods", [[0xA8,0x4E,0x3F],[0x00,0x35,0x1A],[0x8C,0x3B,0xAD]]),
   ("amazon_amplifi", [[0x74,0xC6,0x3B],[0xE4,0x95,0x6E]]),
   ("tenda", [[0xC8,0x3A,0x35],[0xFC,0x7C,0x02],[0x98,0xDE,0xD0]]),
   ("xiaomi_mesh", [[0x34,0xCE,0x00],[0x64,0x64,0x4A],[0xF8,0x59,0x71]]),
   ("honor_huawei", [[0x00,0xE0,0xFC],[0x98,0xF4,0x28],[0xA0,0x8C,0xFD]])]

/-- The inner brand loop of `identify_mesh_brand`: first declared brand
whose OUI list contains `oui`. -/
def brandLookup (oui : List Nat) :
    List (String × List (List Nat)) → Option String
  | [] => none
  | (brand, ouis) :: rest =>
    if oui ∈ ouis then some brand else brandLookup oui rest

/-- `MeshIntelligence.identify_mesh_brand`: scan the BSSIDs in order, first
match wins. -/
def identifyMeshBrand : List (List Nat) → Option String
  | [] => none
  | bssid :: rest =>
    match brandLookup (ouiOf bssid) ouiDatabase with
    | some b => some b
    | none => identifyMeshBrand rest

/-- Stable descending insertion used to model Python
`sorted(..., reverse=True)` on the signal list. -/
def insertDesc (x : Int) : List Int → List Int
  | [] => [x]
  | y :: ys => if x > y then x :: y :: ys else y :: insertDesc x ys

/-- `sorted(signals, reverse=True)`. -/
def sortDesc (l : List Int) : List Int := l.foldr insertDesc []

/-- Lexicographic comparison of code-point lists: Python's string `<=`. -/
def charListLe : List Char → List Char → Bool
  | [], _ => true
  | _ :: _, [] => false
  | a :: as, b :: bs =>
    if a.toNat < b.toNat then true
    else if b.toNat < a.toNat then false
    else charListLe as bs

/-- Python string comparison (code-point lexicographic). -/
def strLe (a b : String) : Bool := charListLe a.toList b.toList

/-- `strLe` as a relation. -/
def strLeProp (a b : String) : Prop := strLe a b = true

instance : DecidableRel strLeProp := fun a b => by
  unfold strLeProp; infer_instance

instance : IsTotal String strLeProp where
  total a b := by
    unfold strLeProp strLe
    generalize a.toList = x
    generalize b.toList = y
    induction x generalizing y with
    | nil => left; rfl
    | cons c cs ih =>
      cases y with
      | nil => right; rfl
      | cons d ds =>
        by_cases h1 : c.toNat < d.toNat
        · left; simp [charListLe, h1]
        · by_cases h2 : d.toNat < c.toNat
          · right; simp [charListLe, h1, h2]
          · rcases ih ds with h | h
            · left; simp [charListLe, h1, h2, h]
            · right; simp [charListLe, h1, h2, h]

instance : IsTrans String strLeProp where
  trans a b c := by
    unfold strLeProp strLe
    generalize a.toList = x
    generalize b.toList = y
    generalize c.toList = z
    intro hab hbc
    induction x generalizing y z with
    | nil => rfl
    | cons u us ih =>
      cases y with
      | nil => simp [charListLe] at hab
      | cons v vs =>
        cases z with
        | nil => simp [charListLe] at hbc
        | cons w ws =>
          simp only [charListLe] at hab hbc ⊢
          rcases Nat.lt_trichotomy u.toNat v.toNat with h1 | h1 | h1
          · rcases Nat.lt_trichotomy v.toNat w.toNat with h2 | h2 | h2
            · rw [if_pos (show u.toNat < w.toNat by omega)]
            · rw [if_pos (show u.toNat < w.toNat by omega)]
            · rw [if_neg (show ¬ v.toNat < w.toNat by omega), if_pos h2] at hbc
              exact absurd hbc (by simp)
          · rw [if_neg (show ¬ u.toNat < v.toNat by omega),
              if_neg (show ¬ v.toNat < u.toNat by omega)] at hab
            rcases Nat.lt_trichotomy v.toNat w.toNat with h2 | h2 | h2
            · rw [if_pos (show u.toNat < w.toNat by omega)]
            · rw [if_neg (show ¬ v.toNat < w.toNat by omega),
                if_neg (show ¬ w.toNat < v.toNat by omega)] at hbc
              rw [if_neg (show ¬ u.toNat < w.toNat by omega),
                if_neg (show ¬ w.toNat < u.toNat by omega)]
              exact ih vs ws hab hbc
            · rw [if_neg (show ¬ v.toNat < w.toNat by omega), if_pos h2] at hbc
              exact absurd hbc (by simp)
          · rw [if_neg (show ¬ u.toNat < v.toNat by omega), if_pos h1] at hab
            exact absurd hab (by simp)

/-- `sorted(...)` on band strings (line 1838), under Python's code-point
string order. -/
def sortStrings (l : List String) : List String := l.insertionSort strLeProp

/-- `all_bands = set(); for node: all_bands.update(node['bands'])`
(lines 1808-1810) under the insertion-order set model. -/
def allBandsOf (nodes : List MeshNode) : List String :=
  nodes.foldl (fun acc n => n.bands.foldl insertBand acc) []

/-- The `'mesh'`-typed result dict of `_analyze_mesh_system`, with the
legacy compatibility fields and the `coverage_details` sub-dict flattened
in. -/
structure MeshResult where
  brand : String
  mesh_type : String
  total_nodes : Nat
  total_radios : Nat
  bands : List String
  signal_range : Int
  mesh_nodes : List MeshNode
  signal_distribution : List Int
  coverage_analysis : CoverageAnalysis
  topology_health : String
  coverage_reason : String
  coverage_health : String
  strongest_node : Int
  weakest_node : Int
  radios_per_node : ℚ
deriving DecidableEq

/-- The result dict of `analyze_mesh_topology`, one constructor per
`'type'` tag.  `single_ap_empty` is the minimal `{'type': 'single_ap',
'nodes': 0}` dict returned for an empty scan list; `single_ap` carries
`nodes = 1` implicitly. -/
inductive TopologyResult where
  | single_ap_empty : TopologyResult
  | single_ap (signal_quality signal_reason : String) (signal_strength : Int) :
      TopologyResult
  | multiple_aps (nodes : Nat) (signal_quality signal_reason : String)
      (strongest_signal : Int) (ap_list : List APScan) : TopologyResult
  | mesh (m : MeshResult) : TopologyResult
deriving DecidableEq

/-- The `'type'` field of the result dict. -/
def TopologyResult.rtype : TopologyResult → String
  | .single_ap_empty => "single_ap"
  | .single_ap _ _ _ => "single_ap"
  | .multiple_aps _ _ _ _ _ => "multiple_aps"
  | .mesh _ => "mesh"

/-- `MeshIntelligence._analyze_mesh_system`.  The per-node `bands` set is
converted to a list for serialization (lines 1827-1830) with no sort; under
the insertion-order set model that conversion is the identity, so the node
dicts are emitted unchanged.  A `none` result propagates the `ValueError`
raised inside the coverage analysis. -/
def analyzeMeshSystem (mesh_nodes : List MeshNode)
    (same_ssid_aps : List APScan) : Option TopologyResult :=
  let total_nodes := mesh_nodes.length
  let brand := identifyMeshBrand (same_ssid_aps.map (·.bssid))
  let all_bands := allBandsOf mesh_nodes
  let mesh_type :=
    if all_bands.length ≥ 3 then "tri_band"
    else if all_bands.length = 2 then "dual_band"
    else "single_band"
  let signals := mesh_nodes.map (·.strongest_signal)
  let sorted_signals := sortDesc signals
  let signal_range := listMax signals - listMin signals
  match performSpatialCoverageAnalysis sorted_signals mesh_nodes with
  | none => none
  | some ca =>
    some (.mesh
      { brand := brand.getD "unknown",
        mesh_type := mesh_type,
        total_nodes := total_nodes,
        total_radios := same_ssid_aps.length,
        bands := sortStrings all_bands,
        signal_range := signal_range,
        mesh_nodes := mesh_nodes,
        signal_distribution := sorted_signals,
        coverage_analysis := ca,
        topology_health := ca.topology_classification,
        coverage_reason := ca.summary,
        coverage_health := ca.spatial_distribution,
        strongest_node := listMax signals,
        weakest_node := listMin signals,
        radios_per_node := (same_ssid_aps.length : ℚ) / (total_nodes : ℚ) })

/-- `MeshIntelligence._analyze_multiple_aps`. -/
def analyzeMultipleAPs (same_ssid_aps : List APScan) : TopologyResult :=
  let signals := same_ssid_aps.map (·.signal)
  let strongest := listMax signals
  let n := same_ssid_aps.length
  if strongest > -50 then
    .multiple_aps n "excellent"
      s!"Strong signals available ({strongest}dBm) from multiple APs"
      strongest same_ssid_aps
  else if strongest > -60 then
    .multiple_aps n "good"
      s!"Good signal options ({strongest}dBm) from {n} APs"
      strongest same_ssid_aps
  else if strongest > -75 then
    .multiple_aps n "fair"
      s!"Moderate signals ({strongest}dBm) - consider moving closer to APs"
      strongest same_ssid_aps
  else
    .multiple_aps n "poor"
      s!"Weak signals from all APs ({strongest}dBm) - poor coverage area"
      strongest same_ssid_aps

/-- `MeshIntelligence.analyze_mesh_topology`.  `none` models an uncaught
exception escaping the call. -/
def analyzeMeshTopology (same_ssid_aps : List APScan) :
    Option TopologyResult :=
  match same_ssid_aps with
  | [] => some .single_ap_empty
  | [ap] =>
    let s := ap.signal
    if s > -50 then
      some (.single_ap "excellent"
        s!"Strong signal ({s}dBm) indicates good placement" s)
    else if s > -60 then
      some (.single_ap "good" s!"Good signal strength ({s}dBm)" s)
    else if s > -75 then
      some (.single_ap "fair"
        s!"Moderate signal ({s}dBm) - consider moving closer or improving placement" s)
    else
      some (.single_ap "poor"
        s!"Weak signal ({s}dBm) - poor placement or too far from AP" s)
  | _ =>
    let st := clusterAPs same_ssid_aps
    if st.mesh_nodes ≠ [] then analyzeMeshSystem st.mesh_nodes same_ssid_aps
    else some (analyzeMultipleAPs same_ssid_aps)

/-- `MeshVennCalculator.calculate_coverage_radius`.  Python `int()` on the
nonnegative value `40 + normalized * 3.5` truncates toward zero, i.e. takes
the floor; `3.5` is exact in binary floating point and the products are
small integers times `3.5`, so exact rational arithmetic models the float
computation without error. -/
def calculateCoverageRadius (signal_dbm : Int) : Int :=
  min 120 (max 40 (40 + Int.floor ((max 0 (signal_dbm + 100) : ℚ) * (35/10))))

/-- Argument of the first `math.acos` in the partial-overlap formula
(line 149). -/
noncomputable def acosArg1 (r1 r2 d : ℝ) : ℝ :=
  (d ^ 2 + r1 ^ 2 - r2 ^ 2) / (2 * d * r1)

/-- Argument of the second `math.acos` (line 150). -/
noncomputable def acosArg2 (r1 r2 d : ℝ) : ℝ :=
  (d ^ 2 + r2 ^ 2 - r1 ^ 2) / (2 * d * r2)

/-- Argument of `math.sqrt` in the chord correction term (line 151). -/
noncomputable def heronArg (r1 r2 d : ℝ) : ℝ :=
  (-d + r1 + r2) * (d + r1 - r2) * (d - r1 + r2) * (d + r1 + r2)

/-- `a + b - c` of lines 149-153: the circle-circle intersection area. -/
noncomputable def intersectionArea (r1 r2 d : ℝ) : ℝ :=
  r1 ^ 2 * Real.arccos (acosArg1 r1 r2 d)
    + r2 ^ 2 * Real.arccos (acosArg2 r1 r2 d)
    - (1 / 2) * Real.sqrt (heronArg r1 r2 d)

/-- The branch structure of `calculate_overlap_percentage` (lines 137-156)
as a function of the two radii and the scaled center distance. -/
noncomputable def overlapFromGeometry (r1 r2 d : ℝ) : ℝ :=
  if d ≥ r1 + r2 then 0
  else if d ≤ |r1 - r2| then
    Real.pi * min r1 r2 ^ 2 / (Real.pi * max r1 r2 ^ 2) * 100
  else
    let ia := intersectionArea r1 r2 d
    let total_area := Real.pi * r1 ^ 2 + Real.pi * r2 ^ 2 - ia
    if total_area > 0 then ia / total_area * 100 else 0

/-- A 2-D layout position. -/
structure VennPos where
  x : ℝ
  y : ℝ

/-- `math.sqrt((x2-x1)**2 + (y2-y1)**2) * 4` (line 135). -/
noncomputable def scaledDistance (p1 p2 : VennPos) : ℝ :=
  Real.sqrt ((p2.x - p1.x) ^ 2 + (p2.y - p1.y) ^ 2) * 4

/-- `MeshVennCalculator.calculate_overlap_percentage` on two node records
with the given positions and signals. -/
noncomputable def calculateOverlapPercentage (p1 p2 : VennPos)
    (s1 s2 : Int) : ℝ :=
  overlapFromGeometry (calculateCoverageRadius s1 : ℝ)
    (calculateCoverageRadius s2 : ℝ) (scaledDistance p1 p2)

/-- Input node record of the Venn engine: a label and a signal. -/
structure VennInput where
  label : String
  signal : Int
deriving DecidableEq

/-- Stable descending insertion for `VennInput` by signal (Python `sorted`
with `reverse=True` keeps equal keys in input order). -/
def insertVennDesc (x : VennInput) : List VennInput → List VennInput
  | [] => [x]
  | y :: ys =>
    if x.signal > y.signal then x :: y :: ys else y :: insertVennDesc x ys

/-- `sorted(nodes_data, key=lambda x: x['signal'], reverse=True)`. -/
def sortVennDesc (l : List VennInput) : List VennInput :=
  l.foldr insertVennDesc []

/-- Stable descending index sort:
`sorted(range(n), key=lambda i: signal[i], reverse=True)`. -/
def insertIdxDesc (sig : Nat → Int) (i : Nat) : List Nat → List Nat
  | [] => [i]
  | j :: js => if sig i ≥ sig j then i :: j :: js else j :: insertIdxDesc sig i js

def sortIndicesDesc (sig : Nat → Int) (n : Nat) : List Nat :=
  (List.range n).foldr (insertIdxDesc sig) []

/-- `positions[orig_idx] = base_positions[i]` for
`i, orig_idx in enumerate(sorted_indices)`. -/
def assignByRank (base : List VennPos) (sortedIdx : List Nat) (n : Nat) :
    List VennPos :=
  (List.range n).map fun j => base.getD (sortedIdx.indexOf j) ⟨0, 0⟩

/-- `MeshVennCalculator._position_two_nodes`. -/
noncomputable def positionTwoNodes (nodes : List VennInput) : List VennPos :=
  let sorted := sortVennDesc nodes
  let radius1 := (calculateCoverageRadius ((sorted.getD 0 ⟨"", 0⟩).signal) : ℝ)
  let radius2 := (calculateCoverageRadius ((sorted.getD 1 ⟨"", 0⟩).signal) : ℝ)
  let overlap_distance := (radius1 + radius2) * (6 / 10)
  [⟨40, 50⟩, ⟨40 + overlap_distance / 4, 50⟩]

/-- Triangle base positions of `_position_three_nodes`. -/
def basePositions3 : List VennPos := [⟨35, 35⟩, ⟨65, 35⟩, ⟨50, 65⟩]

/-- Diamond base positions of `_position_four_nodes`. -/
def basePositions4 : List VennPos := [⟨40, 35⟩, ⟨60, 35⟩, ⟨35, 55⟩, ⟨65, 55⟩]

/-- `MeshVennCalculator._position_many_nodes`: central node plus a
growing-radius spiral, coordinates clamped to `[20, 80]`. -/
noncomputable def positionManyNodes (n : Nat) : List VennPos :=
  (List.range n).map fun i =>
    if i = 0 then ⟨50, 50⟩
    else
      let angle : ℝ := (i - 1 : ℕ) * (2 * Real.pi / ((n - 1 : ℕ) : ℝ))
      let radius_offset : ℝ := 15 + ((i - 1 : ℕ) : ℝ) * 5
      let x := 50 + radius_offset * Real.cos angle
      let y := 50 + radius_offset * Real.sin angle
      ⟨max 20 (min 80 x), max 20 (min 80 y)⟩

/-- `MeshVennCalculator.calculate_optimal_positions`. -/
noncomputable def calculateOptimalPositions (nodes : List VennInput) :
    List VennPos :=
  let sig : Nat → Int := fun i => (nodes.getD i ⟨"", 0⟩).signal
  match nodes.length with
  | 1 => [⟨50, 50⟩]
  | 2 => positionTwoNodes nodes
  | 3 => assignByRank basePositions3 (sortIndicesDesc sig 3) 3
  | 4 => assignByRank basePositions4 (sortIndicesDesc sig 4) 4
  | n => positionManyNodes n

/-- A node record enriched with position, radius and coverage area. -/
structure VennNode where
  label : String
  signal : Int
  position : VennPos
  radius : Int
  coverage_area : ℝ

/-- Placeholder node for out-of-range indexing; every pipeline access is in
range. -/
def dummyVennNode : VennNode :=
  { label := "", signal := 0, position := ⟨0, 0⟩, radius := 0,
    coverage_area := 0 }

/-- One entry of the `overlaps` list. -/
structure Overlap where
  node1_id : Nat
  node2_id : Nat
  overlap_percentage : ℝ
  node1_label : String
  node2_label : String

/-- The double loop of `generate_venn_data` (lines 179-190): pairs `i < j`
whose overlap percentage exceeds 5. -/
noncomputable def pairOverlaps (vn : List VennNode) : List Overlap :=
  ((List.range vn.length).map fun i =>
    ((List.range vn.length).drop (i + 1)).filterMap fun j =>
      let ni := vn.getD i dummyVennNode
      let nj := vn.getD j dummyVennNode
      let pct := calculateOverlapPercentage ni.position nj.position
        ni.signal nj.signal
      if pct > 5 then
        some { node1_id := i, node2_id := j, overlap_percentage := pct,
               node1_label := ni.label, node2_label := nj.label }
      else none).flatten

/-- The dict returned by `generate_venn_data`.  The empty-input early
return carries only the `nodes`, `overlaps` and `total_coverage` keys;
the two keys absent from it are modelled with `Option`. -/
structure VennData where
  nodes : List VennNode
  overlaps : List Overlap
  total_coverage : ℝ
  overlap_count : Option Nat
  avg_overlap : Option ℝ

/-- `MeshVennCalculator.generate_venn_data`. -/
noncomputable def generateVennData (nodes_data : List VennInput) : VennData :=
  match nodes_data with
  | [] =>
    { nodes := [], overlaps := [], total_coverage := 0,
      overlap_count := none, avg_overlap := none }
  | _ =>
    let positions := calculateOptimalPositions nodes_data
    let venn_nodes := (List.range nodes_data.length).map fun i =>
      let nd := nodes_data.getD i ⟨"", 0⟩
      let radius := calculateCoverageRadius nd.signal
      { label := nd.label, signal := nd.signal,
        position := positions.getD i ⟨0, 0⟩, radius := radius,
        coverage_area := Real.pi * (radius : ℝ) ^ 2 : VennNode }
    let overlaps := pairOverlaps venn_nodes
    { nodes := venn_nodes, overlaps := overlaps,
      total_coverage := (venn_nodes.map (·.coverage_area)).sum,
      overlap_count := some overlaps.length,
      avg_overlap := some (if overlaps.length = 0 then 0
        else (overlaps.map (·.overlap_percentage)).sum / (overlaps.length : ℝ)) }

/-- Python `round(x, 1)` modelled as round-half-up to one decimal (Python
rounds half-to-even at exact midpoints; no claim touches a midpoint). -/
noncomputable def roundTenth (x : ℝ) : ℝ := (⌊x * 10 + 1 / 2⌋ : ℝ) / 10

/-- The dict returned by `get_overlap_quality_assessment`; the two keys
absent from the single-node early return are modelled with `Option`. -/
structure QualityAssessment where
  quality : String
  score : Nat
  description : String
  overlap_ratio : Option String
  avg_overlap_pct : Option ℝ

/-- `MeshVennCalculator.get_overlap_quality_assessment`.  The float ratio
`actual / total_possible` is modelled as an exact rational; the float
literals 0.7 and 0.5 are within 3e-17 of the rationals used, and the
integer-over-integer ratios reachable here are never inside those gaps. -/
noncomputable def getOverlapQualityAssessment (venn : VennData) :
    QualityAssessment :=
  if venn.nodes.length < 2 then
    { quality := "single_node", score := 100,
      description := "Single node - no overlap analysis needed",
      overlap_ratio := none, avg_overlap_pct := none }
  else
    let overlaps := venn.overlaps
    let high_overlaps := overlaps.filter fun o =>
      decide (o.overlap_percentage > 30)
    let medium_overlaps := overlaps.filter fun o =>
      decide (15 ≤ o.overlap_percentage ∧ o.overlap_percentage ≤ 30)
    let total_possible := venn.nodes.length * (venn.nodes.length - 1) / 2
    let actual := overlaps.length
    let frac : ℚ := (actual : ℚ) / (total_possible : ℚ)
    let s1 : Nat := if frac > 7/10 then 30 else if frac > 5/10 then 20 else 10
    let s2 := s1 + (if !high_overlaps.isEmpty && !medium_overlaps.isEmpty then 25
      else if !medium_overlaps.isEmpty then 15 else 0)
    let s3 := s2 + (if actual > 0 then 20 else 0)
    let avg := venn.avg_overlap.getD 0
    let s4 := s3 + (if avg > 25 then 25 else if avg > 15 then 15
      else if avg > 5 then 10 else 0)
    let ratioStr := s!"{actual}/{total_possible}"
    let qualityDesc :=
      if s4 ≥ 80 then
        ("excellent", s!"Excellent mesh overlap - {ratioStr} node pairs overlapping")
      else if s4 ≥ 60 then
        ("good", s!"Good mesh overlap - {ratioStr} node pairs with coverage overlap")
      else if s4 ≥ 40 then
        ("fair", "Fair mesh overlap - some coverage gaps possible")
      else
        ("poor", "Poor mesh overlap - significant coverage gaps likely")
    { quality := qualityDesc.1, score := min 100 s4,
      description := qualityDesc.2,
      overlap_ratio := some ratioStr,
      avg_overlap_pct := some (roundTenth avg) }

/-! Claim-side definitions and concrete inputs. -/

/-- The topology-classification decision table exactly as the specification
words it (§4.3 step 5), to be compared with the code-derived
`classifyTopology`. -/
def specDecisionTable (issues : List Issue) (n : Nat) (s : Int) : String :=
  if ∃ i ∈ issues, i.severity = "high" then "topology_issues"
  else if (∃ i ∈ issues, i.severity = "medium") ∧ n < 3 then "basic_topology"
  else if ∃ i ∈ issues, i.severity = "medium" then "good_topology"
  else if n ≥ 4 ∧ s > 85 then "excellent_topology"
  else if n ≥ 3 ∧ s > 75 then "good_topology"
  else "basic_topology"

/-- Signed count of the issues with a given severity. -/
def countSev (issues : List Issue) (sev : String) : Int :=
  ((issues.filter fun i => decide (i.severity = sev)).length : Int)

/-- The MeshNode invariant claimed by the specification: at least one
radio, and `strongest_signal` equal to the maximum of the radios'
signals. -/
def nodeInv (n : MeshNode) : Prop :=
  n.radios ≠ [] ∧ n.strongest_signal = listMax (n.radios.map Radio.signal)

/-- Per-node `bands` lists of a returned mesh result. -/
def resultNodeBands : Option TopologyResult → Option (List (List String))
  | some (.mesh m) => some (m.mesh_nodes.map MeshNode.bands)
  | _ => none

/-- The mesh payload of a returned result, when there is one. -/
def getMeshResult : Option TopologyResult → Option MeshResult
  | some (.mesh m) => some m
  | _ => none

/-- The two-radio single-node scan that makes `analyze_mesh_topology`
raise: both BSSIDs share the base identifier `AA:BB:CC:11:22`. -/
def obsCrash : List APScan :=
  [⟨[0xAA, 0xBB, 0xCC, 0x11, 0x22, 0x30], 5180, -40⟩,
   ⟨[0xAA, 0xBB, 0xCC, 0x11, 0x22, 0x31], 2437, -45⟩]

/-- Scenario B of the specification: BSSIDs `AA:BB:CC:11:22:30/31/40/41`
with signals `[-40, -45, -68, -70]`. -/
def obsB : List APScan :=
  [⟨[0xAA, 0xBB, 0xCC, 0x11, 0x22, 0x30], 5180, -40⟩,
   ⟨[0xAA, 0xBB, 0xCC, 0x11, 0x22, 0x31], 2437, -45⟩,
   ⟨[0xAA, 0xBB, 0xCC, 0x11, 0x22, 0x40], 5180, -68⟩,
   ⟨[0xAA, 0xBB, 0xCC, 0x11, 0x22, 0x41], 2437, -70⟩]

/-- A two-node mesh scan (two base identifiers sharing one OUI), each node
seeing its 5GHz radio before its 2.4GHz radio. -/
def obsC9 : List APScan :=
  [⟨[0xAA, 0xBB, 0xCC, 0x11, 0x22, 0x30], 5180, -40⟩,
   ⟨[0xAA, 0xBB, 0xCC, 0x11, 0x22, 0x31], 2437, -45⟩,
   ⟨[0xAA, 0xBB, 0xCC, 0x33, 0x44, 0x50], 5180, -50⟩,
   ⟨[0xAA, 0xBB, 0xCC, 0x33, 0x44, 0x51], 2437, -55⟩]

def dummyMeshNode : MeshNode := ⟨[], [], [], 0⟩

def dummyCoverageAnalysis : CoverageAnalysis :=
  ⟨[], [], 0, 0, ⟨[], [], [], []⟩, [], "", "", "", [], 0⟩

def dummyMeshResult : MeshResult :=
  ⟨"", "", 0, 0, [], 0, [], [], dummyCoverageAnalysis, "", "", "", 0, 0, 0⟩

def dummyAssessment : Assessment := ⟨"", "", "", 0, [], "", ""⟩

/-- The mesh result computed for `obsC9`. -/
def obsC9_mesh : MeshResult :=
  (getMeshResult (analyzeMeshTopology obsC9)).getD dummyMeshResult

/-- The first clustered node of `obsB`. -/
def c8node : MeshNode := ((clusterAPs obsB).mesh_nodes).getD 0 dummyMeshNode

def wZones : Zones := classifyCoverageZones [-40, -60]

/-- The assessment computed for the two-node witness input of C3. -/
def wAssessment : Assessment :=
  (assessMeshTopology [-40, -60] [20] wZones []).getD dummyAssessment

/-! Helper lemmas. -/

theorem listMax_append (l : List Int) (x : Int) (h : l ≠ []) :
    listMax (l ++ [x]) = max (listMax l) x := by
  cases l with
  | nil => exact absurd rfl h
  | cons a as => simp [listMax, List.foldl_append]

theorem calculateCoverageRadius_ge (s : Int) :
    40 ≤ calculateCoverageRadius s := by
  unfold calculateCoverageRadius
  exact le_min (by norm_num) (le_max_left _ _)

theorem calculateCoverageRadius_le (s : Int) :
    calculateCoverageRadius s ≤ 120 :=
  min_le_left _ _

theorem calculateCoverageRadius_mono {s1 s2 : Int} (h : s1 ≤ s2) :
    calculateCoverageRadius s1 ≤ calculateCoverageRadius s2 := by
  unfold calculateCoverageRadius
  refine min_le_min le_rfl (max_le_max le_rfl ?_)
  have h1 : max (0 : ℚ) ((s1 : ℚ) + 100) ≤ max (0 : ℚ) ((s2 : ℚ) + 100) := by
    refine max_le_max le_rfl ?_
    have : (s1 : ℚ) ≤ (s2 : ℚ) := by exact_mod_cast h
    linarith
  have h2 := Int.floor_mono (mul_le_mul_of_nonneg_right h1 (by norm_num : (0:ℚ) ≤ 35/10))
  omega

/-! C1. -/

/-- C1: the spec says `analyze_mesh_topology` never raises and on the
empty list returns the minimal `{'type': 'single_ap', 'nodes': 0}` result.
The empty-list half holds, but on a scan list whose observations all
cluster into a single MeshNode the unguarded `max(signal_gaps)` on
line 1981 raises `ValueError` (modelled as `none`), contradicting the
claim: the code is a slip, since the very same expression is guarded for
emptiness on lines 1868 and 2000. -/
theorem C1_empty_ok_single_node_raises :
    analyzeMeshTopology [] = some .single_ap_empty ∧
    analyzeMeshTopology obsCrash = none := by
  constructor
  · rfl
  · decide

/-! C2. -/

/-- C2 counterexample: on Scenario B's four observations the clustering
produces one MeshNode, not the claimed two — all four BSSIDs share the
base identifier `AA:BB:CC:11:22` (only the final octet differs, and the
base identifier strips exactly that octet) — and no `'mesh'`-typed result
is returned at all. -/
theorem C2_counterexample :
    (clusterAPs obsB).mesh_nodes.length = 1 ∧
    analyzeMeshTopology obsB = none := by
  constructor
  · decide
  · decide

/-- C2 amended: the four observations of Scenario B all carry the single
base identifier `AA:BB:CC:11:22`, so clustering groups them into exactly
one MeshNode holding all four radios; the analysis then takes the mesh
path but raises on the single-node gap list instead of returning a
`'mesh'`-typed result. -/
theorem C2_amended :
    (clusterAPs obsB).mesh_nodes.map (fun n => (n.base_mac, n.radios.length))
      = [([0xAA, 0xBB, 0xCC, 0x11, 0x22], 4)] ∧
    analyzeMeshTopology obsB = none := by
  constructor
  · decide
  · decide

/-! C6. -/

/-- C6: `calculate_coverage_radius` always lands in `[40, 120]` and is
monotonically non-decreasing in the signal. -/
theorem C6_radius_range_and_mono (s1 s2 : Int) :
    (40 ≤ calculateCoverageRadius s1 ∧ calculateCoverageRadius s1 ≤ 120) ∧
    (s1 ≤ s2 → calculateCoverageRadius s1 ≤ calculateCoverageRadius s2) :=
  ⟨⟨calculateCoverageRadius_ge s1, calculateCoverageRadius_le s1⟩,
   fun h => calculateCoverageRadius_mono h⟩

/-- C6 witness at signals −45 ≤ −40. -/
theorem C6_radius_witness :
    (40 ≤ calculateCoverageRadius (-45) ∧ calculateCoverageRadius (-45) ≤ 120) ∧
    calculateCoverageRadius (-45) ≤ calculateCoverageRadius (-40) :=
  ⟨(C6_radius_range_and_mono (-45) (-40)).1,
   (C6_radius_range_and_mono (-45) (-40)).2 (by decide)⟩

/-! C8. -/

theorem nodeInv_newMeshNode (ap : APScan) : nodeInv (newMeshNode ap) := by
  simp [nodeInv, newMeshNode, mkRadio, listMax]

theorem nodeInv_addRadio (n : MeshNode) (ap : APScan) (h : nodeInv n) :
    nodeInv (addRadio n ap) := by
  obtain ⟨hne, hmax⟩ := h
  constructor
  · simp [addRadio]
  · have hmapne : n.radios.map Radio.signal ≠ [] := by
      simpa using hne
    simp only [addRadio, List.map_append, List.map_cons, List.map_nil, mkRadio]
    rw [listMax_append _ _ hmapne, hmax]

theorem clusterStep_inv (all : List APScan) (st : ClusterState) (ap : APScan)
    (h : ∀ n ∈ st.mesh_nodes, nodeInv n) :
    ∀ n ∈ (clusterStep all st ap).mesh_nodes, nodeInv n := by
  intro n hn
  unfold clusterStep at hn
  by_cases hmem : st.mesh_nodes.any fun m => decide (m.base_mac = baseMac ap.bssid)
  · rw [if_pos hmem] at hn
    simp only [updateNode, List.mem_map] at hn
    obtain ⟨m, hm, hrep⟩ := hn
    by_cases hbase : m.base_mac = baseMac ap.bssid
    · rw [if_pos hbase] at hrep
      exact hrep ▸ nodeInv_addRadio m ap (h m hm)
    · rw [if_neg hbase] at hrep
      exact hrep ▸ h m hm
  · rw [if_neg hmem] at hn
    by_cases hc : (st.mesh_nodes.any fun m =>
        isLikelySameMeshSystem [baseMac ap.bssid, m.base_mac]) ∨
        (all.filter fun a => decide (baseMac a.bssid = baseMac ap.bssid)).length > 1
    · rw [if_pos hc] at hn
      simp only [List.mem_append, List.mem_singleton] at hn
      rcases hn with hn | hn
      · exact h n hn
      · exact hn ▸ nodeInv_newMeshNode ap
    · rw [if_neg hc] at hn
      exact h n hn

theorem clusterFold_inv (l : List APScan) (all : List APScan) :
    ∀ st : ClusterState, (∀ n ∈ st.mesh_nodes, nodeInv n) →
      ∀ n ∈ (l.foldl (clusterStep all) st).mesh_nodes, nodeInv n := by
  induction l with
  | nil => intro st h; simpa using h
  | cons a as ih =>
    intro st h
    exact ih (clusterStep all st a) (clusterStep_inv all st a h)

/-- C8: every MeshNode produced by the clustering holds at least one radio
with `strongest_signal` the maximum of its radios' signals, and the
invariant is re-established each time a radio is added to a node. -/
theorem C8_mesh_node_invariant :
    (∀ (n : MeshNode) (ap : APScan), nodeInv n → nodeInv (addRadio n ap)) ∧
    (∀ (aps : List APScan), ∀ n ∈ (clusterAPs aps).mesh_nodes, nodeInv n) :=
  ⟨nodeInv_addRadio,
   fun aps => clusterFold_inv aps aps ⟨[], []⟩ (by simp)⟩

/-- C8 witness: the invariant instantiated at the node clustered from
`obsB`, and re-established after adding one more radio to it. -/
theorem C8_mesh_node_invariant_witness :
    nodeInv c8node ∧
    nodeInv (addRadio c8node ⟨[0xAA, 0xBB, 0xCC, 0x11, 0x22, 0x50], 5745, -60⟩) :=
  ⟨C8_mesh_node_invariant.2 obsB c8node (by decide),
   C8_mesh_node_invariant.1 c8node _
     (C8_mesh_node_invariant.2 obsB c8node (by decide))⟩

/-! C10. -/

/-- C10: with fewer than 2 nodes the overlap analysis returns an explicit
neutral result and cannot raise: `generate_venn_data` on the empty list
returns the empty-nodes / empty-overlaps / zero-coverage dict, and
`get_overlap_quality_assessment` on data with fewer than 2 nodes returns
quality `single_node` with score 100 and a descriptive string. -/
theorem C10_low_node_neutral :
    generateVennData [] =
      { nodes := [], overlaps := [], total_coverage := 0,
        overlap_count := none, avg_overlap := none } ∧
    (∀ venn : VennData, venn.nodes.length < 2 →
      getOverlapQualityAssessment venn =
        { quality := "single_node", score := 100,
          description := "Single node - no overlap analysis needed",
          overlap_ratio := none, avg_overlap_pct := none }) := by
  constructor
  · rfl
  · intro venn h
    unfold getOverlapQualityAssessment
    rw [if_pos h]

/-- C10 witness: the assessment applied to a concrete one-node venn
structure. -/
theorem C10_low_node_neutral_witness :
    getOverlapQualityAssessment
        ⟨[dummyVennNode], [], 0, some 0, some 0⟩ =
      { quality := "single_node", score := 100,
        description := "Single node - no overlap analysis needed",
        overlap_ratio := none, avg_overlap_pct := none } :=
  C10_low_node_neutral.2 ⟨[dummyVennNode], [], 0, some 0, some 0⟩
    (by simp)

/-! C3. -/

theorem foldl_issuePenalty (issues : List Issue) (init : Int) :
    issues.foldl issuePenalty init =
      init - 25 * countSev issues "high" - 15 * countSev issues "medium"
        - 5 * countSev issues "low" := by
  induction issues generalizing init with
  | nil => simp [countSev]
  | cons i rest ih =>
    rw [List.foldl_cons, ih]
    unfold issuePenalty countSev
    by_cases h1 : i.severity = "high" <;>
      by_cases h2 : i.severity = "medium" <;>
        by_cases h3 : i.severity = "low" <;>
          simp_all [List.filter_cons] <;> push_cast <;> ring

/-- The quality score produced by `_assess_mesh_topology`, written as the
specification's formula. -/
def specQualityFormula (signal_gaps : List Int) (zones : Zones)
    (issues : List Issue) : Int :=
  max 0 (min 100
    (100 - 25 * countSev issues "high" - 15 * countSev issues "medium"
       - 5 * countSev issues "low"
       + (if zones.secondary ≠ [] then 10 else 0)
       + (if listMax signal_gaps < 20 then 15 else 0)))

theorem assess_quality_eq (sorted_signals signal_gaps : List Int)
    (zones : Zones) (issues : List Issue) (a : Assessment)
    (h : assessMeshTopology sorted_signals signal_gaps zones issues = some a) :
    a.quality_score = specQualityFormula signal_gaps zones issues := by
  cases signal_gaps with
  | nil => simp [assessMeshTopology] at h
  | cons g gs =>
    unfold assessMeshTopology at h
    simp only [Option.some.injEq] at h
    subst h
    unfold specQualityFormula
    rw [foldl_issuePenalty]
    have hsec : (zones.secondary.length > 0) ↔ zones.secondary ≠ [] :=
      List.length_pos
    by_cases h1 : zones.secondary ≠ [] <;> by_cases h2 : listMax (g :: gs) < 20
    · simp only [if_pos (hsec.mpr h1), if_pos h1, if_pos h2] <;> ring_nf
    · simp only [if_pos (hsec.mpr h1), if_pos h1, if_neg h2] <;> ring_nf
    · simp only [if_neg (fun hc => h1 (hsec.mp hc)), if_neg h1, if_pos h2] <;> ring_nf
    · simp only [if_neg (fun hc => h1 (hsec.mp hc)), if_neg h1, if_neg h2] <;> ring_nf

theorem assess_quality_bounds (sorted_signals signal_gaps : List Int)
    (zones : Zones) (issues : List Issue) (a : Assessment)
    (h : assessMeshTopology sorted_signals signal_gaps zones issues = some a) :
    0 ≤ a.quality_score ∧ a.quality_score ≤ 100 := by
  rw [assess_quality_eq sorted_signals signal_gaps zones issues a h]
  unfold specQualityFormula
  exact ⟨le_max_left 0 _, max_le (by norm_num) (min_le_left 100 _)⟩

/-- C3: whenever `_assess_mesh_topology` returns, its quality score is 100
minus 25/15/5 per high/medium/low issue, plus 10 for a non-empty secondary
zone, plus 15 when the maximum gap is under 20 dB, clamped to `[0, 100]`
only at the end — hence the `coverage_quality_score` carried by every
returned coverage analysis lies in `[0, 100]`. -/
theorem C3_quality_score_formula :
    (∀ (sorted_signals signal_gaps : List Int) (zones : Zones)
        (issues : List Issue) (a : Assessment),
      assessMeshTopology sorted_signals signal_gaps zones issues = some a →
      a.quality_score = specQualityFormula signal_gaps zones issues ∧
      0 ≤ a.quality_score ∧ a.quality_score ≤ 100) ∧
    (∀ (sorted_signals : List Int) (mesh_nodes : List MeshNode)
        (c : CoverageAnalysis),
      performSpatialCoverageAnalysis sorted_signals mesh_nodes = some c →
      0 ≤ c.coverage_quality_score ∧ c.coverage_quality_score ≤ 100) := by
  constructor
  · intro ss gaps zones issues a h
    exact ⟨assess_quality_eq ss gaps zones issues a h,
      assess_quality_bounds ss gaps zones issues a h⟩
  · intro ss mn c h
    simp only [performSpatialCoverageAnalysis] at h
    split at h
    · exact absurd h (by simp)
    · rename_i ta hta
      simp only [Option.some.injEq] at h
      subst h
      exact assess_quality_bounds _ _ _ _ ta hta

/-- C3 witness: the formula and bounds at a concrete two-node input. -/
theorem C3_quality_score_witness :
    wAssessment.quality_score = specQualityFormula [20] wZones [] ∧
    0 ≤ wAssessment.quality_score ∧ wAssessment.quality_score ≤ 100 :=
  C3_quality_score_formula.1 [-40, -60] [20] wZones [] wAssessment (by decide)

/-! C4. -/

theorem filter_sev_ne_nil (issues : List Issue) (sev : String) :
    (issues.filter fun i => decide (i.severity = sev)) ≠ [] ↔
      ∃ i ∈ issues, i.severity = sev := by
  rw [Ne, List.filter_eq_nil_iff]
  push_neg
  simp

/-- C4: the topology classification follows exactly the specification's
decision table, and on sorted signals `[-30, -85]` the code emits a
high-severity `large_coverage_gap` issue (gap 55 > 35) and classifies the
topology as `topology_issues`. -/
theorem C4_classification_decision_table :
    (∀ (issues : List Issue) (n : Nat) (s : Int) (na : String),
      (classifyTopology issues n s na).1 = specDecisionTable issues n s) ∧
    ((detectCoverageIssues [-30, -85] (signalGaps [-30, -85])
        (classifyCoverageZones [-30, -85])).map (fun i => (i.type, i.severity))
      = [("large_coverage_gap", "high"), ("isolated_distant_node", "medium")] ∧
     (performSpatialCoverageAnalysis [-30, -85] []).map
        (·.topology_classification) = some "topology_issues") := by
  refine ⟨?_, by decide, by decide⟩
  intro issues n s na
  simp only [classifyTopology, specDecisionTable,
    filter_sev_ne_nil issues "high", filter_sev_ne_nil issues "medium"]
  split_ifs <;> rfl

/-! C9. -/

theorem sortStrings_sorted (l : List String) :
    List.Sorted strLeProp (sortStrings l) :=
  List.sorted_insertionSort _ l

/-- C9 counterexample: on `obsC9` the serialized mesh result carries the
per-node bands lists exactly as accumulated (`list(set)`, no sort is
applied on line 1830), and for both nodes that list is
`["5GHz", "2.4GHz"]`, which is not sorted. -/
theorem C9_node_bands_not_sorted :
    resultNodeBands (analyzeMeshTopology obsC9)
      = some [["5GHz", "2.4GHz"], ["5GHz", "2.4GHz"]] ∧
    ¬ List.Sorted strLeProp ["5GHz", "2.4GHz"] := by
  constructor
  · decide
  · decide

/-- C9 amended: only the top-level `bands` list of a mesh result is sorted
before emission (line 1838); each node's band set is converted to a list
with no sorting, so node-level band lists may come out unsorted. -/
theorem C9_top_level_bands_sorted :
    ∀ (obs : List APScan) (m : MeshResult),
      analyzeMeshTopology obs = some (.mesh m) →
      List.Sorted strLeProp m.bands := by
  intro obs m h
  match obs with
  | [] => simp [analyzeMeshTopology] at h
  | [ap] =>
    simp only [analyzeMeshTopology] at h
    split_ifs at h <;> simp_all
  | a :: b :: rest =>
    simp only [analyzeMeshTopology] at h
    by_cases hc : (clusterAPs (a :: b :: rest)).mesh_nodes ≠ []
    · rw [if_pos hc] at h
      simp only [analyzeMeshSystem] at h
      split at h
      · exact absurd h (by simp)
      · simp only [Option.some.injEq, TopologyResult.mesh.injEq] at h
        subst h
        exact sortStrings_sorted _
    · rw [if_neg hc] at h
      simp only [Option.some.injEq, analyzeMultipleAPs] at h
      split_ifs at h <;> simp_all

/-- C9 amended witness: the sortedness of the top-level bands list at the
concrete mesh result of `obsC9`. -/
theorem C9_top_level_bands_sorted_witness :
    List.Sorted strLeProp obsC9_mesh.bands :=
  C9_top_level_bands_sorted obsC9 obsC9_mesh (by rfl)

/-! C7. -/

theorem overlap_domain (r1 r2 d : ℝ) (hr1 : 0 < r1) (hr2 : 0 < r2)
    (hlo : |r1 - r2| < d) (hhi : d < r1 + r2) :
    (-1 ≤ acosArg1 r1 r2 d ∧ acosArg1 r1 r2 d ≤ 1) ∧
    (-1 ≤ acosArg2 r1 r2 d ∧ acosArg2 r1 r2 d ≤ 1) ∧
    0 ≤ heronArg r1 r2 d ∧
    2 * d * r1 ≠ 0 ∧ 2 * d * r2 ≠ 0 := by
  have habs := abs_lt.mp hlo
  have hd : 0 < d := lt_of_le_of_lt (abs_nonneg _) hlo
  have hden1 : 0 < 2 * d * r1 := by positivity
  have hden2 : 0 < 2 * d * r2 := by positivity
  have h1 : 0 < -d + r1 + r2 := by linarith
  have h2 : 0 < d + r1 - r2 := by linarith
  have h3 : 0 < d - r1 + r2 := by linarith
  have h4 : 0 < d + r1 + r2 := by linarith
  refine ⟨⟨?_, ?_⟩, ⟨?_, ?_⟩, ?_, ne_of_gt hden1, ne_of_gt hden2⟩
  · rw [acosArg1, le_div_iff hden1]
    nlinarith [mul_pos h2 h4]
  · rw [acosArg1, div_le_one hden1]
    nlinarith [mul_pos h1 h3]
  · rw [acosArg2, le_div_iff hden2]
    nlinarith [mul_pos h3 h4]
  · rw [acosArg2, div_le_one hden2]
    nlinarith [mul_pos h1 h2]
  · exact le_of_lt (mul_pos (mul_pos (mul_pos h1 h2) h3) h4)

/-- C7: whenever the partial-overlap branch of
`calculate_overlap_percentage` is reached (both early-return guards fail),
the scaled distance satisfies `|r1 - r2| < d < r1 + r2`, under which both
`acos` arguments lie in `[-1, 1]`, the `sqrt` argument is nonnegative and
the divisors `2*d*r1` and `2*d*r2` are nonzero (division by `total_area`
is guarded by `total_area > 0` in the code itself); and the
`radios_per_node` division of `_analyze_mesh_system` runs only with a
non-empty mesh-node set, whose size is then a nonzero divisor. -/
theorem C7_arithmetic_domain_safety :
    (∀ (s1 s2 : Int) (d : ℝ),
      ¬ (d ≥ (calculateCoverageRadius s1 : ℝ) + (calculateCoverageRadius s2 : ℝ)) →
      ¬ (d ≤ |(calculateCoverageRadius s1 : ℝ) - (calculateCoverageRadius s2 : ℝ)|) →
      (|(calculateCoverageRadius s1 : ℝ) - (calculateCoverageRadius s2 : ℝ)| < d ∧
        d < (calculateCoverageRadius s1 : ℝ) + (calculateCoverageRadius s2 : ℝ)) ∧
      (-1 ≤ acosArg1 (calculateCoverageRadius s1 : ℝ) (calculateCoverageRadius s2 : ℝ) d ∧
        acosArg1 (calculateCoverageRadius s1 : ℝ) (calculateCoverageRadius s2 : ℝ) d ≤ 1) ∧
      (-1 ≤ acosArg2 (calculateCoverageRadius s1 : ℝ) (calculateCoverageRadius s2 : ℝ) d ∧
        acosArg2 (calculateCoverageRadius s1 : ℝ) (calculateCoverageRadius s2 : ℝ) d ≤ 1) ∧
      0 ≤ heronArg (calculateCoverageRadius s1 : ℝ) (calculateCoverageRadius s2 : ℝ) d ∧
      2 * d * (calculateCoverageRadius s1 : ℝ) ≠ 0 ∧
      2 * d * (calculateCoverageRadius s2 : ℝ) ≠ 0) ∧
    (∀ aps : List APScan, (clusterAPs aps).mesh_nodes ≠ [] →
      0 < (((clusterAPs aps).mesh_nodes.length : Nat) : ℚ)) := by
  constructor
  · intro s1 s2 d hg1 hg2
    rw [not_le] at hg1 hg2
    have hr1 : (0 : ℝ) < (calculateCoverageRadius s1 : ℝ) := by
      have := calculateCoverageRadius_ge s1
      exact_mod_cast lt_of_lt_of_le (by norm_num : (0:Int) < 40) this
    have hr2 : (0 : ℝ) < (calculateCoverageRadius s2 : ℝ) := by
      have := calculateCoverageRadius_ge s2
      exact_mod_cast lt_of_lt_of_le (by norm_num : (0:Int) < 40) this
    exact ⟨⟨hg2, hg1⟩, overlap_domain _ _ d hr1 hr2 hg2 hg1⟩
  · intro aps h
    have : 0 < (clusterAPs aps).mesh_nodes.length := List.length_pos.mpr h
    exact_mod_cast this

/-- C7 witness: the domain facts at signals −100/−100 (radii 40) and
scaled distance 10, and the nonzero node-count divisor at the clustering
of `obsB`. -/
theorem C7_arithmetic_domain_safety_witness :
    ((|(calculateCoverageRadius (-100) : ℝ) - (calculateCoverageRadius (-100) : ℝ)| < 10 ∧
      (10 : ℝ) < (calculateCoverageRadius (-100) : ℝ) + (calculateCoverageRadius (-100) : ℝ)) ∧
     (-1 ≤ acosArg1 (calculateCoverageRadius (-100) : ℝ) (calculateCoverageRadius (-100) : ℝ) 10 ∧
       acosArg1 (calculateCoverageRadius (-100) : ℝ) (calculateCoverageRadius (-100) : ℝ) 10 ≤ 1) ∧
     (-1 ≤ acosArg2 (calculateCoverageRadius (-100) : ℝ) (calculateCoverageRadius (-100) : ℝ) 10 ∧
       acosArg2 (calculateCoverageRadius (-100) : ℝ) (calculateCoverageRadius (-100) : ℝ) 10 ≤ 1) ∧
     0 ≤ heronArg (calculateCoverageRadius (-100) : ℝ) (calculateCoverageRadius (-100) : ℝ) 10 ∧
     2 * (10 : ℝ) * (calculateCoverageRadius (-100) : ℝ) ≠ 0 ∧
     2 * (10 : ℝ) * (calculateCoverageRadius (-100) : ℝ) ≠ 0) ∧
    0 < (((clusterAPs obsB).mesh_nodes.length : Nat) : ℚ) := by
  have hr : calculateCoverageRadius (-100) = 40 := by
    unfold calculateCoverageRadius
    norm_num
  refine ⟨C7_arithmetic_domain_safety.1 (-100) (-100) 10 ?_ ?_,
    C7_arithmetic_domain_safety.2 obsB (by decide)⟩
  · rw [hr]; norm_num
  · rw [hr]; norm_num

/-! C5. -/

theorem overlap_zero_outside (r1 r2 d : ℝ) (hd : r1 + r2 ≤ d) :
    overlapFromGeometry r1 r2 d = 0 := by
  unfold overlapFromGeometry
  rw [if_pos hd]

theorem overlap_enclosed (r1 r2 d : ℝ) (h2 : 0 < r2) (h12 : r2 ≤ r1)
    (hd : d ≤ r1 - r2) :
    overlapFromGeometry r1 r2 d = Real.pi * r2 ^ 2 / (Real.pi * r1 ^ 2) * 100 := by
  have habs : |r1 - r2| = r1 - r2 := abs_of_nonneg (by linarith)
  unfold overlapFromGeometry
  rw [if_neg (not_le.mpr (by linarith : d < r1 + r2)),
    if_pos (by rw [habs]; exact hd), min_eq_right h12, max_eq_left h12]

theorem intersectionArea_continuousAt (r1 r2 x : ℝ) (hx : x ≠ 0)
    (hr1 : r1 ≠ 0) (hr2 : r2 ≠ 0) :
    ContinuousAt (intersectionArea r1 r2) x := by
  unfold intersectionArea acosArg1 acosArg2 heronArg
  have c1 : ContinuousAt (fun d : ℝ => (d ^ 2 + r1 ^ 2 - r2 ^ 2) / (2 * d * r1)) x := by
    refine ContinuousAt.div ?_ ?_ ?_
    · exact Continuous.continuousAt (by continuity)
    · exact Continuous.continuousAt (by continuity)
    · simp [hx, hr1]
  have c2 : ContinuousAt (fun d : ℝ => (d ^ 2 + r2 ^ 2 - r1 ^ 2) / (2 * d * r2)) x := by
    refine ContinuousAt.div ?_ ?_ ?_
    · exact Continuous.continuousAt (by continuity)
    · exact Continuous.continuousAt (by continuity)
    · simp [hx, hr2]
  have c3 : ContinuousAt (fun d : ℝ =>
      (-d + r1 + r2) * (d + r1 - r2) * (d - r1 + r2) * (d + r1 + r2)) x :=
    Continuous.continuousAt (by continuity)
  exact (((continuousAt_const.mul
      (Real.continuous_arccos.continuousAt.comp c1)).add
    (continuousAt_const.mul
      (Real.continuous_arccos.continuousAt.comp c2))).sub
    (continuousAt_const.mul
      (Real.continuous_sqrt.continuousAt.comp c3)))

theorem intersectionArea_at_sum (r1 r2 : ℝ) (h1 : 0 < r1) (h2 : 0 < r2) :
    intersectionArea r1 r2 (r1 + r2) = 0 := by
  have hden1 : 2 * (r1 + r2) * r1 ≠ 0 := by positivity
  have hden2 : 2 * (r1 + r2) * r2 ≠ 0 := by positivity
  have ha1 : acosArg1 r1 r2 (r1 + r2) = 1 := by
    unfold acosArg1
    rw [show (r1 + r2) ^ 2 + r1 ^ 2 - r2 ^ 2 = 2 * (r1 + r2) * r1 by ring]
    exact div_self hden1
  have ha2 : acosArg2 r1 r2 (r1 + r2) = 1 := by
    unfold acosArg2
    rw [show (r1 + r2) ^ 2 + r2 ^ 2 - r1 ^ 2 = 2 * (r1 + r2) * r2 by ring]
    exact div_self hden2
  have hh : heronArg r1 r2 (r1 + r2) = 0 := by
    unfold heronArg; ring
  unfold intersectionArea
  rw [ha1, ha2, hh, Real.arccos_one, Real.sqrt_zero]
  ring

theorem intersectionArea_at_diff (r1 r2 : ℝ) (h2 : 0 < r2) (hlt : r2 < r1) :
    intersectionArea r1 r2 (r1 - r2) = Real.pi * r2 ^ 2 := by
  have hdpos : 0 < r1 - r2 := by linarith
  have hden1 : 2 * (r1 - r2) * r1 ≠ 0 :=
    ne_of_gt (mul_pos (mul_pos (by norm_num) hdpos) (lt_trans h2 hlt))
  have hden2 : (2 : ℝ) * (r1 - r2) * r2 ≠ 0 :=
    ne_of_gt (mul_pos (mul_pos (by norm_num) hdpos) h2)
  have ha1 : acosArg1 r1 r2 (r1 - r2) = 1 := by
    unfold acosArg1
    rw [show (r1 - r2) ^ 2 + r1 ^ 2 - r2 ^ 2 = 2 * (r1 - r2) * r1 by ring]
    exact div_self hden1
  have ha2 : acosArg2 r1 r2 (r1 - r2) = -1 := by
    unfold acosArg2
    rw [show (r1 - r2) ^ 2 + r2 ^ 2 - r1 ^ 2 = -(2 * (r1 - r2) * r2) by ring,
      neg_div, div_self hden2]
  have hh : heronArg r1 r2 (r1 - r2) = 0 := by
    unfold heronArg; ring
  unfold intersectionArea
  rw [ha1, ha2, hh, Real.arccos_one, Real.arccos_neg_one, Real.sqrt_zero]
  ring

theorem overlap_partial_eq (r1 r2 d : ℝ) (hlo : |r1 - r2| < d)
    (hhi : d < r1 + r2)
    (hpos : 0 < Real.pi * r1 ^ 2 + Real.pi * r2 ^ 2 - intersectionArea r1 r2 d) :
    overlapFromGeometry r1 r2 d =
      intersectionArea r1 r2 d /
        (Real.pi * r1 ^ 2 + Real.pi * r2 ^ 2 - intersectionArea r1 r2 d) * 100 := by
  simp only [overlapFromGeometry]
  rw [if_neg (not_le.mpr hhi), if_neg (not_le.mpr hlo), if_pos hpos]

theorem tendsto_intersectionArea_diff_right (r1 r2 : ℝ) (h2 : 0 < r2)
    (h12 : r2 ≤ r1) :
    Filter.Tendsto (intersectionArea r1 r2)
      (nhdsWithin (r1 - r2) (Set.Ioi (r1 - r2)))
      (nhds (Real.pi * r2 ^ 2)) := by
  rcases eq_or_lt_of_le h12 with heq | hlt
  · subst heq
    rw [sub_self]
    have hr2 : (2 : ℝ) * r2 ≠ 0 := by positivity
    have cdiv : ContinuousAt (fun d : ℝ => d / (2 * r2)) 0 :=
      (continuous_id.div_const (2 * r2)).continuousAt
    have cher : ContinuousAt (fun d : ℝ => heronArg r2 r2 d) 0 := by
      unfold heronArg
      exact Continuous.continuousAt (by continuity)
    have hgcont : ContinuousAt (fun d : ℝ =>
        r2 ^ 2 * Real.arccos (d / (2 * r2)) + r2 ^ 2 * Real.arccos (d / (2 * r2))
          - 1 / 2 * Real.sqrt (heronArg r2 r2 d)) 0 :=
      ((continuousAt_const.mul
          (Real.continuous_arccos.continuousAt.comp cdiv)).add
        (continuousAt_const.mul
          (Real.continuous_arccos.continuousAt.comp cdiv))).sub
        (continuousAt_const.mul
          (Real.continuous_sqrt.continuousAt.comp cher))
    have hgval : r2 ^ 2 * Real.arccos ((0 : ℝ) / (2 * r2))
        + r2 ^ 2 * Real.arccos ((0 : ℝ) / (2 * r2))
        - 1 / 2 * Real.sqrt (heronArg r2 r2 0) = Real.pi * r2 ^ 2 := by
      rw [zero_div, Real.arccos_zero,
        show heronArg r2 r2 0 = 0 by unfold heronArg; ring, Real.sqrt_zero]
      ring
    rw [ContinuousAt] at hgcont
    rw [hgval] at hgcont
    refine Filter.Tendsto.congr' ?_ (hgcont.mono_left nhdsWithin_le_nhds)
    filter_upwards [self_mem_nhdsWithin] with d hd
    have hdne : (d : ℝ) ≠ 0 := ne_of_gt hd
    unfold intersectionArea acosArg1 acosArg2
    have harg : (d ^ 2 + r2 ^ 2 - r2 ^ 2) / (2 * d * r2) = d / (2 * r2) := by
      rw [show d ^ 2 + r2 ^ 2 - r2 ^ 2 = d * d by ring,
        show (2 : ℝ) * d * r2 = d * (2 * r2) by ring,
        mul_div_mul_left _ _ hdne]
    rw [harg]
  · have h1 : 0 < r1 := lt_trans h2 hlt
    have hc := intersectionArea_continuousAt r1 r2 (r1 - r2)
      (ne_of_gt (by linarith)) (ne_of_gt h1) (ne_of_gt h2)
    rw [ContinuousAt, intersectionArea_at_diff r1 r2 h2 hlt] at hc
    exact hc.mono_left nhdsWithin_le_nhds

theorem overlap_continuousAt_sum (r1 r2 : ℝ) (h2 : 0 < r2) (h12 : r2 ≤ r1) :
    ContinuousAt (overlapFromGeometry r1 r2) (r1 + r2) := by
  have h1 : 0 < r1 := lt_of_lt_of_le h2 h12
  have hd0 : (0 : ℝ) < r1 + r2 := by linarith
  have hfval : overlapFromGeometry r1 r2 (r1 + r2) = 0 :=
    overlap_zero_outside _ _ _ le_rfl
  have hG : ContinuousAt (intersectionArea r1 r2) (r1 + r2) :=
    intersectionArea_continuousAt _ _ _ (ne_of_gt hd0) (ne_of_gt h1) (ne_of_gt h2)
  have hG0 : intersectionArea r1 r2 (r1 + r2) = 0 :=
    intersectionArea_at_sum r1 r2 h1 h2
  have hT : ContinuousAt (fun d : ℝ =>
      Real.pi * r1 ^ 2 + Real.pi * r2 ^ 2 - intersectionArea r1 r2 d) (r1 + r2) :=
    continuousAt_const.sub hG
  have hTpos : 0 < Real.pi * r1 ^ 2 + Real.pi * r2 ^ 2
      - intersectionArea r1 r2 (r1 + r2) := by
    rw [hG0]
    have : (0 : ℝ) < Real.pi * r1 ^ 2 + Real.pi * r2 ^ 2 := by positivity
    linarith
  have hev : ∀ᶠ d in nhds (r1 + r2),
      0 < Real.pi * r1 ^ 2 + Real.pi * r2 ^ 2 - intersectionArea r1 r2 d :=
    hT.eventually (eventually_gt_nhds hTpos)
  have hdiv : Filter.Tendsto (fun d : ℝ => intersectionArea r1 r2 d /
      (Real.pi * r1 ^ 2 + Real.pi * r2 ^ 2 - intersectionArea r1 r2 d) * 100)
      (nhds (r1 + r2)) (nhds 0) := by
    have hc := (hG.div hT (ne_of_gt hTpos)).mul (continuousAt_const : ContinuousAt (fun _ : ℝ => (100 : ℝ)) _)
    rw [ContinuousAt] at hc
    simp only [Pi.div_apply] at hc
    rw [hG0] at hc
    simp only [zero_div, zero_mul] at hc
    exact hc
  have hleft : Filter.Tendsto (overlapFromGeometry r1 r2)
      (nhdsWithin (r1 + r2) (Set.Iio (r1 + r2))) (nhds 0) := by
    refine Filter.Tendsto.congr' ?_ (hdiv.mono_left nhdsWithin_le_nhds)
    have hIoo : Set.Ioo (|r1 - r2|) (r1 + r2) ∈
        nhdsWithin (r1 + r2) (Set.Iio (r1 + r2)) := by
      refine Ioo_mem_nhdsWithin_Iio ⟨?_, le_rfl⟩
      rw [abs_of_nonneg (by linarith : (0:ℝ) ≤ r1 - r2)]
      linarith
    filter_upwards [hIoo, hev.filter_mono nhdsWithin_le_nhds] with d hd hTd
    exact (overlap_partial_eq r1 r2 d hd.1 hd.2 hTd).symm
  have hright : Filter.Tendsto (overlapFromGeometry r1 r2)
      (nhdsWithin (r1 + r2) (Set.Ici (r1 + r2))) (nhds 0) := by
    refine Filter.Tendsto.congr' ?_ tendsto_const_nhds
    filter_upwards [self_mem_nhdsWithin] with d hd
    exact (overlap_zero_outside r1 r2 d hd).symm
  rw [ContinuousAt, hfval, ← nhds_left'_sup_nhds_right (r1 + r2),
    Filter.tendsto_sup]
  exact ⟨hleft, hright⟩

theorem overlap_continuousAt_diff (r1 r2 : ℝ) (h2 : 0 < r2) (h12 : r2 ≤ r1) :
    ContinuousAt (overlapFromGeometry r1 r2) (r1 - r2) := by
  have h1 : 0 < r1 := lt_of_lt_of_le h2 h12
  have habs : |r1 - r2| = r1 - r2 := abs_of_nonneg (by linarith)
  have hC : overlapFromGeometry r1 r2 (r1 - r2)
      = Real.pi * r2 ^ 2 / (Real.pi * r1 ^ 2) * 100 :=
    overlap_enclosed _ _ _ h2 h12 le_rfl
  have hGt := tendsto_intersectionArea_diff_right r1 r2 h2 h12
  have hTt : Filter.Tendsto (fun d : ℝ =>
      Real.pi * r1 ^ 2 + Real.pi * r2 ^ 2 - intersectionArea r1 r2 d)
      (nhdsWithin (r1 - r2) (Set.Ioi (r1 - r2)))
      (nhds (Real.pi * r1 ^ 2)) := by
    have hconst : Filter.Tendsto (fun _ : ℝ => Real.pi * r1 ^ 2 + Real.pi * r2 ^ 2)
        (nhdsWithin (r1 - r2) (Set.Ioi (r1 - r2)))
        (nhds (Real.pi * r1 ^ 2 + Real.pi * r2 ^ 2)) := tendsto_const_nhds
    have hsub := hconst.sub hGt
    rw [show Real.pi * r1 ^ 2 + Real.pi * r2 ^ 2 - Real.pi * r2 ^ 2
      = Real.pi * r1 ^ 2 by ring] at hsub
    exact hsub
  have hTpos : (0 : ℝ) < Real.pi * r1 ^ 2 := by positivity
  have hevT : ∀ᶠ d in nhdsWithin (r1 - r2) (Set.Ioi (r1 - r2)),
      0 < Real.pi * r1 ^ 2 + Real.pi * r2 ^ 2 - intersectionArea r1 r2 d :=
    hTt.eventually (eventually_gt_nhds hTpos)
  have hdivt : Filter.Tendsto (fun d : ℝ => intersectionArea r1 r2 d /
      (Real.pi * r1 ^ 2 + Real.pi * r2 ^ 2 - intersectionArea r1 r2 d) * 100)
      (nhdsWithin (r1 - r2) (Set.Ioi (r1 - r2)))
      (nhds (Real.pi * r2 ^ 2 / (Real.pi * r1 ^ 2) * 100)) :=
    (hGt.div hTt (ne_of_gt hTpos)).mul_const 100
  have hright : Filter.Tendsto (overlapFromGeometry r1 r2)
      (nhdsWithin (r1 - r2) (Set.Ioi (r1 - r2)))
      (nhds (Real.pi * r2 ^ 2 / (Real.pi * r1 ^ 2) * 100)) := by
    refine Filter.Tendsto.congr' ?_ hdivt
    filter_upwards [Ioo_mem_nhdsWithin_Ioi ⟨le_rfl, show (r1 - r2) < r1 + r2 by linarith⟩,
      hevT] with d hd hTd
    refine (overlap_partial_eq r1 r2 d ?_ hd.2 hTd).symm
    rw [habs]
    exact hd.1
  have hleft : Filter.Tendsto (overlapFromGeometry r1 r2)
      (nhdsWithin (r1 - r2) (Set.Iic (r1 - r2)))
      (nhds (Real.pi * r2 ^ 2 / (Real.pi * r1 ^ 2) * 100)) := by
    refine Filter.Tendsto.congr' ?_ tendsto_const_nhds
    filter_upwards [self_mem_nhdsWithin] with d hd
    exact (overlap_enclosed r1 r2 d h2 h12 hd).symm
  rw [ContinuousAt, hC, ← nhds_left_sup_nhds_right' (r1 - r2),
    Filter.tendsto_sup]
  exact ⟨hleft, hright⟩

/-- C5: with radii `0 < r2 ≤ r1` (so `|r1 - r2| = r1 - r2`),
`calculate_overlap_percentage` as a function of the scaled center distance
`d` returns exactly 0 for `d ≥ r1 + r2`, exactly
`100 * min(area1, area2) / max(area1, area2)` for `d ≤ |r1 - r2|`, and is
continuous at both boundary distances. -/
theorem C5_overlap_boundary_values_and_continuity (r1 r2 : ℝ)
    (h2 : 0 < r2) (h12 : r2 ≤ r1) :
    (∀ d : ℝ, r1 + r2 ≤ d → overlapFromGeometry r1 r2 d = 0) ∧
    (∀ d : ℝ, d ≤ |r1 - r2| →
      overlapFromGeometry r1 r2 d =
        100 * min (Real.pi * r1 ^ 2) (Real.pi * r2 ^ 2) /
          max (Real.pi * r1 ^ 2) (Real.pi * r2 ^ 2)) ∧
    ContinuousAt (overlapFromGeometry r1 r2) (r1 + r2) ∧
    ContinuousAt (overlapFromGeometry r1 r2) (|r1 - r2|) := by
  have habs : |r1 - r2| = r1 - r2 := abs_of_nonneg (by linarith)
  have hsq : r2 ^ 2 ≤ r1 ^ 2 := pow_le_pow_left h2.le h12 2
  have harea : Real.pi * r2 ^ 2 ≤ Real.pi * r1 ^ 2 :=
    mul_le_mul_of_nonneg_left hsq Real.pi_pos.le
  refine ⟨fun d hd => overlap_zero_outside r1 r2 d hd, ?_, ?_, ?_⟩
  · intro d hd
    rw [habs] at hd
    rw [overlap_enclosed r1 r2 d h2 h12 hd, min_eq_right harea,
      max_eq_left harea]
    ring
  · exact overlap_continuousAt_sum r1 r2 h2 h12
  · rw [habs]
    exact overlap_continuousAt_diff r1 r2 h2 h12

/-- C5 witness at the equal radii `r1 = r2 = 40` (the radius produced by
signal −100): the exact boundary values at `d = 80` and `d = 0`, and
continuity at both boundary distances. -/
theorem C5_overlap_boundary_witness :
    overlapFromGeometry 40 40 80 = 0 ∧
    overlapFromGeometry 40 40 0 =
      100 * min (Real.pi * 40 ^ 2) (Real.pi * 40 ^ 2) /
        max (Real.pi * 40 ^ 2) (Real.pi * 40 ^ 2) ∧
    ContinuousAt (overlapFromGeometry 40 40) (40 + 40) ∧
    ContinuousAt (overlapFromGeometry 40 40) (|(40 : ℝ) - 40|) := by
  have h := C5_overlap_boundary_values_and_continuity 40 40 (by norm_num) le_rfl
  exact ⟨h.1 80 (by norm_num), h.2.1 0 (by norm_num), h.2.2.1, h.2.2.2⟩

end MeshAnalyzer
